import Mathlib

/-!
Shallow embedding of the extraction pipeline of `pdf_extractor.py`
(file-type detection, structured-field extraction, PDF data assembly,
image/OCR path), together with theorems settling the specification's
claims about it.

Python strings are modelled as `List Char` (`PyStr`), file bytes as
`List Nat` (`Bytes`).  Reading a file is modelled by passing its content
as `Option Bytes` (`none` models an unreadable path, mirroring the
`except:` arm around `open`).  Python `str.lower`/`str.strip` are
modelled on their ASCII behaviour, which is all the pipeline exercises.
-/

set_option autoImplicit false

namespace PdfExtractor

abbrev PyStr := List Char

def strL (s : String) : PyStr := s.toList

abbrev Bytes := List Nat

/-- ASCII lowering, modelling `str.lower` on the ASCII range. -/
def pyLower (s : PyStr) : PyStr := s.map Char.toLower

/-- The whitespace set of `str.strip` (ASCII part). -/
def pyIsSpace (c : Char) : Bool :=
  c = ' ' || c = '\t' || c = '\n' || c = '\r' || c = '\x0b' || c = '\x0c'

/-- Python `str.strip()`: trim whitespace from both ends. -/
def pyStrip (s : PyStr) : PyStr :=
  ((s.dropWhile pyIsSpace).reverse.dropWhile pyIsSpace).reverse

/-- Index of the last occurrence of `c`, as Python `str.rfind` (minus the
`-1` convention, recovered by the callers). -/
def rfindAux (c : Char) : List Char → Nat → Option Nat → Option Nat
  | [], _, acc => acc
  | x :: xs, i, acc => rfindAux c xs (i + 1) (if x = c then some i else acc)

def rfind (p : PyStr) (c : Char) : Option Nat := rfindAux c p 0 Option.none

/-- Model of `os.path.splitext` (posix): the extension starts at the last
dot of the final path component, provided some earlier character of that
component is not a dot. -/
def splitext (p : PyStr) : PyStr × PyStr :=
  let sepIndex : Int := match rfind p '/' with
    | Option.none => -1
    | some i => (i : Int)
  let dotIndex : Int := match rfind p '.' with
    | Option.none => -1
    | some i => (i : Int)
  if sepIndex < dotIndex then
    let start := (sepIndex + 1).toNat
    let stop := dotIndex.toNat
    if ((p.drop start).take (stop - start)).any (fun c => c != '.') then
      (p.take stop, p.drop stop)
    else (p, [])
  else (p, [])

/-- `os.path.basename` (posix): everything after the last slash. -/
def basename (p : PyStr) : PyStr :=
  match rfind p '/' with
  | Option.none => p
  | some i => p.drop (i + 1)

/-- The supported image extension list of `_detect_file_type`. -/
def image_extensions : List PyStr :=
  [strL ".jpg", strL ".jpeg", strL ".png", strL ".gif",
   strL ".bmp", strL ".tiff", strL ".heic", strL ".heif"]

/-- The bytes of `b'%PDF'`. -/
def pdfMagic : Bytes := [0x25, 0x50, 0x44, 0x46]

/-- The bytes of `b'\x00\x00\x00\x24'`. -/
def heicSig : Bytes := [0x00, 0x00, 0x00, 0x24]

/-- The bytes of `b'\x00\x00\x00\x20ftyp'`. -/
def ftypSig : Bytes := [0x00, 0x00, 0x00, 0x20, 0x66, 0x74, 0x79, 0x70]

/-- Embedding of `_detect_file_type`.  `content` is the byte content of
the file at `file_path` (`none`: opening or reading raises, which the
bare `except:` swallows).  Mirrors the source: extension check first,
then `header = f.read(4)` and the two signature comparisons. -/
def _detect_file_type (file_path : PyStr) (content : Option Bytes) : PyStr :=
  let ext := pyLower (splitext file_path).2
  if ext ∈ image_extensions then strL "image"
  else
    match content with
    | Option.none => strL "pdf"
    | some bs =>
      let header := bs.take 4
      if header.take 4 = pdfMagic then strL "pdf"
      else if header.take 4 = heicSig ∨ header.take 8 = ftypSig then strL "image"
      else strL "pdf"

/-- Helper: when the lowered extension is in the image set, the classifier
answers image before looking at any bytes. -/
theorem detect_of_ext_mem (path : PyStr) (content : Option Bytes)
    (h : pyLower (splitext path).2 ∈ image_extensions) :
    _detect_file_type path content = strL "image" := by
  simp [_detect_file_type, h]

/-- Helper: the 8-byte `ftyp` comparison can never succeed, because the
header buffer holds at most the 4 bytes `f.read(4)` returned. -/
theorem take4_take8_ne_ftypSig (bs : Bytes) : (bs.take 4).take 8 ≠ ftypSig := by
  intro h
  have hlen := congrArg List.length h
  simp [ftypSig, List.length_take] at hlen
  omega

/-- Helper: with no image extension, the classifier on readable content
reduces to the two-signature byte test (the dead `ftyp` arm removed). -/
theorem detect_some_eq (path : PyStr) (bs : Bytes)
    (h : pyLower (splitext path).2 ∉ image_extensions) :
    _detect_file_type path (some bs) =
      if bs.take 4 = pdfMagic then strL "pdf"
      else if bs.take 4 = heicSig then strL "image"
      else strL "pdf" := by
  have htt : (bs.take 4).take 4 = bs.take 4 := by
    simp [List.take_take]
  show (if pyLower (splitext path).2 ∈ image_extensions then strL "image"
        else if (bs.take 4).take 4 = pdfMagic then strL "pdf"
        else if (bs.take 4).take 4 = heicSig ∨ (bs.take 4).take 8 = ftypSig then strL "image"
        else strL "pdf") = _
  rw [if_neg h, htt]
  by_cases hp : bs.take 4 = pdfMagic
  · rw [if_pos hp, if_pos hp]
  · rw [if_neg hp, if_neg hp]
    by_cases hh : bs.take 4 = heicSig
    · rw [if_pos (Or.inl hh), if_pos hh]
    · rw [if_neg ?_, if_neg hh]
      rintro (hc | hc)
      · exact hh hc
      · exact take4_take8_ne_ftypSig bs hc

/-- Helper: with no image extension and `%PDF` leading bytes, the
classifier answers pdf. -/
theorem detect_of_pdf_magic (path : PyStr) (bs : Bytes)
    (hext : pyLower (splitext path).2 ∉ image_extensions)
    (hmagic : bs.take 4 = pdfMagic) :
    _detect_file_type path (some bs) = strL "pdf" := by
  rw [detect_some_eq path bs hext, if_pos hmagic]

end PdfExtractor

namespace PdfExtractor

/-- C1 counterexample: a file whose bytes begin with `%PDF` but whose
path carries the extension `.jpg` is classified image, not PDF — the
extension check runs before the byte check. -/
theorem c1_counterexample :
    (pdfMagic ++ [0x2d, 0x31, 0x2e, 0x34]).take 4 = pdfMagic
    ∧ _detect_file_type (strL "scan.jpg") (some (pdfMagic ++ [0x2d, 0x31, 0x2e, 0x34]))
        = strL "image"
    ∧ _detect_file_type (strL "scan.jpg") (some (pdfMagic ++ [0x2d, 0x31, 0x2e, 0x34]))
        ≠ strL "pdf" := by
  decide

/-- C1 (amended): for every file whose first bytes are exactly `%PDF` and
whose path's lowered extension is not in the supported image set,
`_detect_file_type` returns pdf. -/
theorem c1_pdf_magic_wins (path : PyStr) (bs : Bytes)
    (hext : pyLower (splitext path).2 ∉ image_extensions)
    (hmagic : bs.take 4 = pdfMagic) :
    _detect_file_type path (some bs) = strL "pdf" :=
  detect_of_pdf_magic path bs hext hmagic

/-- C1 witness: a `.txt`-named file with `%PDF` bytes classifies as pdf. -/
theorem c1_pdf_magic_wins_witness :
    _detect_file_type (strL "doc.txt") (some pdfMagic) = strL "pdf" :=
  c1_pdf_magic_wins (strL "doc.txt") pdfMagic (by decide) (by decide)

/-- C5: the 8-byte `ftyp` pattern never classifies a file as image —
`f.read(4)` returns at most 4 bytes, so the comparison of `header[:8]`
against the 8-byte literal is dead code and such a file falls through to
the pdf default.  The 4-byte HEIC signature branch does work. -/
theorem c5_ftyp_branch_dead :
    (ftypSig ++ [0x68, 0x65, 0x69, 0x63]).take 8 = ftypSig
    ∧ pyLower (splitext (strL "sample.bin")).2 ∉ image_extensions
    ∧ _detect_file_type (strL "sample.bin") (some (ftypSig ++ [0x68, 0x65, 0x69, 0x63]))
        = strL "pdf"
    ∧ _detect_file_type (strL "sample.bin") (some (heicSig ++ [0x68, 0x65, 0x69, 0x63]))
        = strL "image" := by
  decide

/-- C9: the classifier is total — it answers pdf or image for every path
and content, including unreadable (`none`) and empty content; an image
extension forces image regardless of bytes; otherwise unreadable content
and unrecognized leading bytes default to pdf. -/
theorem c9_detect_total (path : PyStr) (content : Option Bytes) :
    (_detect_file_type path content = strL "pdf"
      ∨ _detect_file_type path content = strL "image")
    ∧ (pyLower (splitext path).2 ∈ image_extensions →
        _detect_file_type path content = strL "image")
    ∧ (pyLower (splitext path).2 ∉ image_extensions → content = Option.none →
        _detect_file_type path content = strL "pdf")
    ∧ (∀ bs : Bytes, pyLower (splitext path).2 ∉ image_extensions → content = some bs →
        bs.take 4 ≠ pdfMagic → bs.take 4 ≠ heicSig →
        _detect_file_type path content = strL "pdf") := by
  refine ⟨?_, fun hm => detect_of_ext_mem path content hm, ?_, ?_⟩
  · by_cases h : pyLower (splitext path).2 ∈ image_extensions
    · exact Or.inr (detect_of_ext_mem path content h)
    · cases content with
      | none => exact Or.inl (by simp [_detect_file_type, h])
      | some bs =>
        rw [detect_some_eq path bs h]
        by_cases hp : bs.take 4 = pdfMagic
        · rw [if_pos hp]; exact Or.inl rfl
        · rw [if_neg hp]
          by_cases hh : bs.take 4 = heicSig
          · rw [if_pos hh]; exact Or.inr rfl
          · rw [if_neg hh]; exact Or.inl rfl
  · intro hn hc
    subst hc
    simp [_detect_file_type, hn]
  · intro bs hn hc hnp hnh
    subst hc
    rw [detect_some_eq path bs hn, if_neg hnp, if_neg hnh]

/-- C9 witness: a `.PNG`-named empty file classifies as image. -/
theorem c9_detect_total_witness :
    _detect_file_type (strL "x.PNG") (some []) = strL "image" :=
  (c9_detect_total (strL "x.PNG") (some [])).2.1 (by decide)

/-- C10: extension matching is case-insensitive — whenever the lowered
extension is in the supported image set the classifier answers image, in
particular for the uppercase and mixed-case paths `a.JPG`, `b.Png`,
`c.HEIC`. -/
theorem c10_ext_case_insensitive (path : PyStr) (content : Option Bytes)
    (h : pyLower (splitext path).2 ∈ image_extensions) :
    _detect_file_type path content = strL "image"
    ∧ _detect_file_type (strL "a.JPG") content = strL "image"
    ∧ _detect_file_type (strL "b.Png") content = strL "image"
    ∧ _detect_file_type (strL "c.HEIC") content = strL "image" :=
  ⟨detect_of_ext_mem path content h,
   detect_of_ext_mem _ content (by decide),
   detect_of_ext_mem _ content (by decide),
   detect_of_ext_mem _ content (by decide)⟩

/-- C10 witness: an uppercase `.JPG` extension classifies as image even
over pdf bytes. -/
theorem c10_ext_case_insensitive_witness :
    _detect_file_type (strL "a.JPG") (some pdfMagic) = strL "image" :=
  (c10_ext_case_insensitive (strL "a.JPG") (some pdfMagic) (by decide)).1

end PdfExtractor

namespace PdfExtractor

/-- Python `text.split(sep)` for a one-character separator: keeps empty
pieces, and the empty string splits to one empty piece. -/
def pySplitChar (sep : Char) : PyStr → List PyStr
  | [] => [[]]
  | c :: rest =>
    let r := pySplitChar sep rest
    if c = sep then [] :: r
    else
      match r with
      | [] => [[c]]
      | h :: t => (c :: h) :: t

/-- The two halves of a line around its first colon (used only when the
line contains a colon). -/
def splitAtFirstColon : PyStr → PyStr × PyStr
  | [] => ([], [])
  | c :: rest =>
    if c = ':' then ([], rest)
    else
      let p := splitAtFirstColon rest
      (c :: p.1, p.2)

/-- Python `line.split(":", 1)`: the whole line when it has no colon,
otherwise the part before and the part after the first colon. -/
def pySplit1Colon (l : PyStr) : List PyStr :=
  if ':' ∈ l then [(splitAtFirstColon l).1, (splitAtFirstColon l).2] else [l]

/-- One table record of `extract_pdf_data`: page, 1-based table number on
the page, and the grid of cells the parser returned. -/
structure TableRecord where
  page : Nat
  table_number : Nat
  data : List (List (Option PyStr))
deriving DecidableEq, Repr

/-- The `structured_data` dictionary of `extract_structured_data`. -/
structure StructuredFields where
  key_value_pairs : List (PyStr × PyStr)
  tables_count : Nat
  text_length : Nat
  lines : List PyStr
deriving DecidableEq, Repr

/-- Python-dict assignment `d[k] = v`: overwrite in place when the key
exists, else append (insertion order preserved, first occurrence wins for
position). -/
def dictAssign (d : List (PyStr × PyStr)) (k v : PyStr) : List (PyStr × PyStr) :=
  if d.any (fun p => p.1 == k) then
    d.map (fun p => if p.1 = k then (k, v) else p)
  else d ++ [(k, v)]

/-- The per-line step of the key-value loop of `extract_structured_data`,
mirroring the source: gate on `":" in line`, `split(":", 1)`, the
`len(parts) == 2` check, strip both parts, insert when both truthy. -/
def kvStep (d : List (PyStr × PyStr)) (line : PyStr) : List (PyStr × PyStr) :=
  if ':' ∈ line then
    let parts := pySplit1Colon line
    if parts.length = 2 then
      let key := pyStrip (parts.headD [])
      let value := pyStrip (parts.getD 1 [])
      if key ≠ [] ∧ value ≠ [] then dictAssign d key value else d
    else d
  else d

/-- Embedding of `extract_structured_data`. -/
def extract_structured_data (text : PyStr) (tables : List TableRecord) :
    StructuredFields :=
  let ls := pySplitChar '\n' text
  { key_value_pairs := ls.foldl kvStep []
  , tables_count := tables.length
  , text_length := text.length
  , lines := ls.take 50 }

/-- Spec-side restatement of the key-value heuristic, written from the
claim's words: split each line at its first colon only, trim whitespace
from both parts, record the pair only when both trimmed parts are
non-empty, skip lines without a colon, later duplicates overwrite. -/
def specKvPairs (text : PyStr) : List (PyStr × PyStr) :=
  (pySplitChar '\n' text).foldl
    (fun d line =>
      if ':' ∈ line then
        let key := pyStrip (splitAtFirstColon line).1
        let value := pyStrip (splitAtFirstColon line).2
        if key ≠ [] ∧ value ≠ [] then dictAssign d key value else d
      else d) []

end PdfExtractor

namespace PdfExtractor

theorem kvStep_eq_spec_step (d : List (PyStr × PyStr)) (line : PyStr) :
    kvStep d line =
      if ':' ∈ line then
        let key := pyStrip (splitAtFirstColon line).1
        let value := pyStrip (splitAtFirstColon line).2
        if key ≠ [] ∧ value ≠ [] then dictAssign d key value else d
      else d := by
  by_cases h : ':' ∈ line
  · simp [kvStep, pySplit1Colon, h]
  · simp [kvStep, h]

/-- The analysed example input
`"Name: Alice\nAge: 30\nNotrealkv\nURL: http://x:8080"`. -/
def exampleText : PyStr :=
  strL "Name: Alice\nAge: 30\nNotrealkv\nURL: http://x:8080"

/-- A duplicate-key example input. -/
def dupText : PyStr := strL "A: 1\nB: 2\nA: 3"

/-- C2: the key-value pairs of `extract_structured_data` coincide with
the spec-side description (first-colon-only split, trim, keep only
non-empty pairs, skip colon-free lines, later duplicate overwrites), and
on the example input they are exactly Name/Age/URL with the URL value
keeping its second colon; a later duplicate key overwrites the earlier
value in place. -/
theorem c2_key_value_pairs (text : PyStr) (tables : List TableRecord) :
    (extract_structured_data text tables).key_value_pairs = specKvPairs text
    ∧ (extract_structured_data exampleText []).key_value_pairs =
        [(strL "Name", strL "Alice"), (strL "Age", strL "30"),
         (strL "URL", strL "http://x:8080")]
    ∧ (extract_structured_data dupText []).key_value_pairs =
        [(strL "A", strL "3"), (strL "B", strL "2")] := by
  refine ⟨?_, by decide, by decide⟩
  show (pySplitChar '\n' text).foldl kvStep [] = specKvPairs text
  unfold specKvPairs
  congr 1
  funext d line
  exact kvStep_eq_spec_step d line

/-- The 60-line example text: 59 lines `x` followed by a final line `y`. -/
def text60 : PyStr := (List.replicate 59 (strL "x\n")).flatten ++ strL "y"

/-- C8: `tables_count` is the length of the tables argument,
`text_length` is the character count of the text, `lines` is the first 50
entries of the newline-split line sequence in order; on the 60-line
example exactly 50 sample lines survive, the first 50 lines in order. -/
theorem c8_summary_fields (text : PyStr) (tables : List TableRecord) :
    (extract_structured_data text tables).tables_count = tables.length
    ∧ (extract_structured_data text tables).text_length = text.length
    ∧ (extract_structured_data text tables).lines = (pySplitChar '\n' text).take 50
    ∧ (pySplitChar '\n' text60).length = 60
    ∧ (extract_structured_data text60 []).lines.length = 50
    ∧ (extract_structured_data text60 []).lines = (pySplitChar '\n' text60).take 50 := by
  refine ⟨rfl, rfl, rfl, by decide, by decide, rfl⟩

end PdfExtractor

namespace PdfExtractor

/-- A Python value as stored in the pdfplumber metadata dictionary: a
string, an int, or None (enough to model non-string properties). -/
inductive PyValue where
  | str (s : PyStr)
  | int (n : Int)
  | noneV
deriving DecidableEq, Repr

/-- Decimal digits of a natural number (fuel-based). -/
def digitChar (n : Nat) : Char := Char.ofNat (48 + n % 10)

def natDecAux : Nat → Nat → PyStr
  | 0, _ => []
  | fuel + 1, n =>
    if n < 10 then [digitChar n] else natDecAux fuel (n / 10) ++ [digitChar (n % 10)]

def natDec (n : Nat) : PyStr := natDecAux (n + 1) n

def intDec (n : Int) : PyStr :=
  if n < 0 then '-' :: natDec n.natAbs else natDec n.toNat

/-- Python `str()` on a metadata value. -/
def pyStrFn : PyValue → PyStr
  | .str s => s
  | .int n => intDec n
  | .noneV => strL "None"

/-- Whether a Python value is a string. -/
def PyValue.isStr : PyValue → Bool
  | .str _ => true
  | _ => false

/-- Python `dict.get(k, d)` over an association list with unique keys. -/
def dictGet (m : List (PyStr × PyValue)) (k : PyStr) (d : PyValue) : PyValue :=
  match m with
  | [] => d
  | (k2, v) :: rest => if k2 = k then v else dictGet rest k d

/-- First value stored under a key, used to inspect result metadata. -/
def lookupVal (m : List (PyStr × PyValue)) (k : PyStr) : Option PyValue :=
  match m with
  | [] => Option.none
  | (k2, v) :: rest => if k2 = k then some v else lookupVal rest k

/-- One pdf page as pdfplumber presents it: what `page.extract_text()`
returns (`none` models Python `None`) and what `page.extract_tables()`
returns. -/
structure PdfPage where
  extracted_text : Option PyStr
  extracted_tables : List (List (List (Option PyStr)))
deriving DecidableEq, Repr

/-- An opened pdf document: its metadata dictionary and its pages. -/
structure PdfDocument where
  metadata : List (PyStr × PyValue)
  pages : List PdfPage
deriving DecidableEq, Repr

/-- The dictionary `extract_pdf_data` returns. -/
structure ExtractedData where
  raw_text : PyStr
  tables : List TableRecord
  metadata : List (PyStr × PyValue)
  pages : Nat
  structured_data : StructuredFields
deriving DecidableEq, Repr

/-- The metadata dictionary literal of `extract_pdf_data`: the five plain
`.get(key, "")` fields and the two `str(...)`-coerced date fields. -/
def pdfMetadataFields (m : List (PyStr × PyValue)) : List (PyStr × PyValue) :=
  [ (strL "title", dictGet m (strL "Title") (.str []))
  , (strL "author", dictGet m (strL "Author") (.str []))
  , (strL "subject", dictGet m (strL "Subject") (.str []))
  , (strL "creator", dictGet m (strL "Creator") (.str []))
  , (strL "producer", dictGet m (strL "Producer") (.str []))
  , (strL "creation_date", .str (pyStrFn (dictGet m (strL "CreationDate") (.str []))))
  , (strL "modification_date", .str (pyStrFn (dictGet m (strL "ModDate") (.str [])))) ]

/-- Python truthiness of `page.extract_text()`: `None` and `""` are
falsy. -/
def truthyText : Option PyStr → Bool
  | Option.none => false
  | some s => s ≠ []

/-- The page-marked text blocks collected by the page loop, numbering
pages from `n` (the source enumerates from 1); pages with falsy text
contribute nothing. -/
def pageTextBlocks : Nat → List PdfPage → List PyStr
  | _, [] => []
  | n, p :: ps =>
    (if truthyText p.extracted_text then
       [strL "--- Page " ++ natDec n ++ strL " ---\n" ++ p.extracted_text.getD []]
     else []) ++ pageTextBlocks (n + 1) ps

/-- Table records of one page: `enumerate(tables)` with `table_num + 1`. -/
def gridRecords (pageNum : Nat) : Nat → List (List (List (Option PyStr))) → List TableRecord
  | _, [] => []
  | i, g :: gs => { page := pageNum, table_number := i + 1, data := g } :: gridRecords pageNum (i + 1) gs

/-- Table records of all pages, numbering pages from `n`. -/
def pageTableRecords : Nat → List PdfPage → List TableRecord
  | _, [] => []
  | n, p :: ps => gridRecords n 0 p.extracted_tables ++ pageTableRecords (n + 1) ps

/-- Embedding of the pdf branch of `extract_pdf_data` on a successfully
opened document. -/
def extract_pdf_data (pdf : PdfDocument) : ExtractedData :=
  let raw := List.intercalate (strL "\n\n") (pageTextBlocks 1 pdf.pages)
  let tbls := pageTableRecords 1 pdf.pages
  { raw_text := raw
  , tables := tbls
  , metadata := pdfMetadataFields pdf.metadata
  , pages := pdf.pages.length
  , structured_data := extract_structured_data raw tbls }

/-- Whether `pat` occurs as a contiguous run inside `s`. -/
def startsWithStr : PyStr → PyStr → Bool
  | _, [] => true
  | [], _ :: _ => false
  | c :: cs, d :: ds => c = d && startsWithStr cs ds

def hasSub : PyStr → PyStr → Bool
  | [], pat => startsWithStr [] pat
  | s@(_ :: rest), pat => startsWithStr s pat || hasSub rest pat

end PdfExtractor

namespace PdfExtractor

/-- Helper: `dict.get` with a string default yields a string whenever
every stored value is a string. -/
theorem dictGet_isStr (m : List (PyStr × PyValue)) (k : PyStr) (d : PyValue)
    (hm : ∀ p ∈ m, p.2.isStr = true) (hd : d.isStr = true) :
    (dictGet m k d).isStr = true := by
  induction m with
  | nil => exact hd
  | cons p tl ih =>
    obtain ⟨k2, v⟩ := p
    by_cases hk : k2 = k
    · simpa [dictGet, hk] using hm (k2, v) (List.mem_cons_self _ _)
    · simp only [dictGet, if_neg hk]
      exact ih (fun q hq => hm q (List.mem_cons_of_mem _ hq))

/-- C6 counterexample: a document whose Title property is the non-string
value `7` produces a metadata title field that is not a string — only the
two date fields pass through `str(...)`. -/
theorem c6_counterexample :
    lookupVal (extract_pdf_data
        { metadata := [(strL "Title", PyValue.int 7)], pages := [] }).metadata
      (strL "title") = some (PyValue.int 7)
    ∧ (PyValue.int 7).isStr = false := by
  decide

/-- C6 (amended): the result metadata holds exactly the seven fields in
order; the two date fields are the underlying property coerced through
`str(...)` (empty string when absent); the other five are the underlying
property unchanged (empty string when absent), hence strings only when
the underlying properties are strings. -/
theorem c6_metadata_fields (pdf : PdfDocument) :
    (extract_pdf_data pdf).metadata = pdfMetadataFields pdf.metadata
    ∧ (extract_pdf_data pdf).metadata.map Prod.fst =
        [strL "title", strL "author", strL "subject", strL "creator", strL "producer",
         strL "creation_date", strL "modification_date"]
    ∧ lookupVal (extract_pdf_data pdf).metadata (strL "creation_date")
        = some (PyValue.str (pyStrFn (dictGet pdf.metadata (strL "CreationDate") (PyValue.str []))))
    ∧ lookupVal (extract_pdf_data pdf).metadata (strL "modification_date")
        = some (PyValue.str (pyStrFn (dictGet pdf.metadata (strL "ModDate") (PyValue.str []))))
    ∧ lookupVal (extract_pdf_data pdf).metadata (strL "title")
        = some (dictGet pdf.metadata (strL "Title") (PyValue.str []))
    ∧ ((∀ p ∈ pdf.metadata, p.2.isStr = true) →
        ∀ q ∈ (extract_pdf_data pdf).metadata, q.2.isStr = true) := by
  refine ⟨rfl, rfl, rfl, rfl, rfl, ?_⟩
  intro h q hq
  have h5 : ∀ k : PyStr, (dictGet pdf.metadata k (PyValue.str [])).isStr = true :=
    fun k => dictGet_isStr pdf.metadata k _ h rfl
  simp only [extract_pdf_data, pdfMetadataFields, List.mem_cons,
    List.not_mem_nil, or_false] at hq
  rcases hq with rfl | rfl | rfl | rfl | rfl | rfl | rfl
  · exact h5 _
  · exact h5 _
  · exact h5 _
  · exact h5 _
  · exact h5 _
  · rfl
  · rfl

/-- C6 witness: a document whose Title is the string `T` yields the
string `T` as the title field. -/
theorem c6_metadata_fields_witness :
    lookupVal (extract_pdf_data
        { metadata := [(strL "Title", PyValue.str (strL "T"))], pages := [] }).metadata
      (strL "title") = some (PyValue.str (strL "T")) :=
  ((c6_metadata_fields
      { metadata := [(strL "Title", PyValue.str (strL "T"))], pages := [] }).2.2.2.2.1).trans
    (by decide)

/-- A three-page document whose middle page yields no extractable text. -/
def pdf3 : PdfDocument :=
  { metadata := []
  , pages :=
      [ { extracted_text := some (strL "alpha"), extracted_tables := [] }
      , { extracted_text := Option.none, extracted_tables := [] }
      , { extracted_text := some (strL "gamma"), extracted_tables := [] } ] }

/-- C7: the pages field is always the document's page count, a page with
falsy text contributes no block (the block list is as long as the list of
truthy-text pages), and on the three-page example with an empty middle
page the raw text contains page-1 and page-3 markers but no page-2
marker while pages is still 3. -/
theorem c7_pages_reflect_count (pdf : PdfDocument) :
    (extract_pdf_data pdf).pages = pdf.pages.length
    ∧ (∀ (ps : List PdfPage) (n : Nat),
        (pageTextBlocks n ps).length
          = (ps.filter (fun p => truthyText p.extracted_text)).length)
    ∧ (extract_pdf_data pdf3).pages = 3
    ∧ (extract_pdf_data pdf3).raw_text
        = strL "--- Page 1 ---\nalpha\n\n--- Page 3 ---\ngamma"
    ∧ hasSub (extract_pdf_data pdf3).raw_text (strL "--- Page 2") = false
    ∧ hasSub (extract_pdf_data pdf3).raw_text (strL "--- Page 1") = true
    ∧ hasSub (extract_pdf_data pdf3).raw_text (strL "--- Page 3") = true := by
  refine ⟨rfl, ?_, by decide, by decide, by decide, by decide, by decide⟩
  intro ps
  induction ps with
  | nil => intro n; rfl
  | cons p tl ih =>
    intro n
    by_cases h : truthyText p.extracted_text = true
    · simp [pageTextBlocks, h, ih]
    · simp [pageTextBlocks, h, ih]

end PdfExtractor

namespace PdfExtractor

/-- A raised Python exception, by the classes `_extract_from_image`
distinguishes in its `except` clauses. -/
inductive PyExc where
  | fileNotFound (msg : PyStr)
  | importError (msg : PyStr)
  | calledProcessError (msg : PyStr)
  | exc (msg : PyStr)
deriving DecidableEq, Repr

/-- A PIL image as far as the code inspects it: its `mode`. -/
structure PILImg where
  mode : PyStr
deriving DecidableEq, Repr

instance {α β : Type} [DecidableEq α] [DecidableEq β] : DecidableEq (Except α β) := fun a b =>
  match a, b with
  | .error x, .error y =>
    if h : x = y then isTrue (by rw [h])
    else isFalse (fun hc => h (by injection hc))
  | .ok x, .ok y =>
    if h : x = y then isTrue (by rw [h])
    else isFalse (fun hc => h (by injection hc))
  | .error _, .ok _ => isFalse (fun hc => by injection hc)
  | .ok _, .error _ => isFalse (fun hc => by injection hc)

/-- The external world the image path touches: whether `from PIL import
Image` raises (with which message), what `Image.open` yields (a
`FileNotFoundError` when the input path is missing, another error when
decoding fails), whether `img.save` raises, and what the tesseract
subprocess does (`FileNotFoundError` when the binary is absent,
`CalledProcessError` on non-zero exit, else its stdout). -/
structure ImageEnv where
  pilImport : Option PyStr
  openImage : Except PyExc PILImg
  saveExc : Option PyExc
  tessRun : Except PyExc PyStr
deriving DecidableEq, Repr

/-- The fatal message raised by the `except FileNotFoundError` clause. -/
def tessNotFoundMsg : PyStr :=
  strL "Tesseract OCR not found. Please install tesseract: brew install tesseract"

/-- The head of the message raised by the `except ImportError` clause. -/
def pillowMsgHead : PyStr :=
  strL "PIL/Pillow not available. Please install Pillow: "

/-- The `except` clauses of `_extract_from_image`, in source order:
`FileNotFoundError`, `ImportError`, `CalledProcessError`, `Exception`,
each re-raising a plain `Exception` with its own message. -/
def imageExceptClauses (e : PyExc) : PyExc :=
  match e with
  | .fileNotFound _ => .exc tessNotFoundMsg
  | .importError m => .exc (pillowMsgHead ++ m)
  | .calledProcessError m => .exc (strL "Tesseract OCR error: " ++ m)
  | .exc m => .exc (strL "Error extracting from image: " ++ m)

/-- Embedding of `_extract_from_image`.  The first component is the
call's outcome, the second whether the temporary PNG is still on disk
after the call (the leak flag): the file is created by
`NamedTemporaryFile(delete=False)`; `img.save` runs before the inner
`try`, so a save failure skips the `finally` unlink, while the `finally`
removes the file on both subprocess outcomes. -/
def _extract_from_image (env : ImageEnv) (image_path : PyStr) :
    Except PyExc ExtractedData × Bool :=
  let md : List (PyStr × PyValue) :=
    [(strL "file_type", PyValue.str (strL "image")),
     (strL "filename", PyValue.str (basename image_path))]
  match env.pilImport with
  | some m => (Except.error (imageExceptClauses (.importError m)), false)
  | Option.none =>
    match env.openImage with
    | Except.error e => (Except.error (imageExceptClauses e), false)
    | Except.ok img =>
      let _converted : PILImg :=
        if img.mode ≠ strL "RGB" then { mode := strL "RGB" } else img
      match env.saveExc with
      | some e => (Except.error (imageExceptClauses e), true)
      | Option.none =>
        match env.tessRun with
        | Except.error e => (Except.error (imageExceptClauses e), false)
        | Except.ok out =>
          (Except.ok
            { raw_text := out
            , tables := []
            , metadata := md
            , pages := 1
            , structured_data := extract_structured_data out [] }, false)

end PdfExtractor

namespace PdfExtractor

/-- Helper: the Pillow-missing message never equals the tesseract-missing
message, whatever the import error's text. -/
theorem pillow_msg_ne_tess_msg (m : PyStr) : pillowMsgHead ++ m ≠ tessNotFoundMsg := by
  have hp : pillowMsgHead
      = 'P' :: strL "IL/Pillow not available. Please install Pillow: " := by decide
  have ht : tessNotFoundMsg
      = 'T' :: strL "esseract OCR not found. Please install tesseract: brew install tesseract" := by
    decide
  rw [hp, ht, List.cons_append]
  intro h
  injection h with h1 _
  exact absurd h1 (by decide)

/-- Environment: save fails after the temp file was created. -/
def envSaveFails : ImageEnv :=
  { pilImport := Option.none
  , openImage := Except.ok { mode := strL "RGB" }
  , saveExc := some (PyExc.exc (strL "disk full"))
  , tessRun := Except.ok [] }

/-- C3 counterexample: when `img.save` on the temporary PNG raises, the
call fails but the temporary file is left on disk — the cleanup runs only
in the `finally` of the subprocess invocation, which a save failure never
reaches. -/
theorem c3_counterexample :
    (_extract_from_image envSaveFails (strL "a.png")).2 = true
    ∧ (_extract_from_image envSaveFails (strL "a.png")).1
        = Except.error (PyExc.exc (strL "Error extracting from image: disk full")) := by
  decide

/-- C3 (amended): whenever the save of the converted image succeeds the
temporary PNG is deleted on every exit path of the call — OCR success,
missing binary, and non-zero exit alike; when the save raises after the
temporary file was created, the file is leaked. -/
theorem c3_temp_cleanup (env : ImageEnv) (path : PyStr) (img : PILImg) :
    (env.saveExc = Option.none → (_extract_from_image env path).2 = false)
    ∧ (∀ e : PyExc, env.pilImport = Option.none → env.openImage = Except.ok img →
        env.saveExc = some e → (_extract_from_image env path).2 = true) := by
  constructor
  · intro hsave
    unfold _extract_from_image
    cases hpi : env.pilImport with
    | some m => rfl
    | none =>
      cases hoi : env.openImage with
      | error e => rfl
      | ok img2 =>
        rw [hsave]
        cases htr : env.tessRun <;> rfl
  · intro e hpi hoi hsave
    unfold _extract_from_image
    rw [hpi, hoi, hsave]

/-- Environment: everything available, OCR succeeds. -/
def envOcrOk : ImageEnv :=
  { pilImport := Option.none
  , openImage := Except.ok { mode := strL "L" }
  , saveExc := Option.none
  , tessRun := Except.ok (strL "hello") }

/-- C3 witness: on a successful OCR run the temporary file is gone. -/
theorem c3_temp_cleanup_witness :
    (_extract_from_image envOcrOk (strL "b.png")).2 = false :=
  (c3_temp_cleanup envOcrOk (strL "b.png") { mode := strL "L" }).1 rfl

/-- Environment: the input image path itself does not exist; PIL and the
tesseract binary are both perfectly available. -/
def envMissingInput : ImageEnv :=
  { pilImport := Option.none
  , openImage := Except.error (PyExc.fileNotFound (strL "missing.png"))
  , saveExc := Option.none
  , tessRun := Except.ok [] }

/-- C4 counterexample: a missing input image path — an unrelated
missing-file condition — produces exactly the missing-OCR-binary message,
because `Image.open`'s `FileNotFoundError` is caught by the clause meant
for the tesseract binary. -/
theorem c4_counterexample :
    envMissingInput.tessRun = Except.ok []
    ∧ (_extract_from_image envMissingInput (strL "missing.png")).1
        = Except.error (PyExc.exc tessNotFoundMsg) := by
  decide

/-- C4 (amended): a missing OCR binary surfaces as an error with the
tesseract message and a missing image-decoding capability as an error
with the Pillow message; the two messages always differ and neither call
returns a partial result; but the tesseract-missing message is also
produced when the input image path does not exist. -/
theorem c4_error_causes (env : ImageEnv) (path m : PyStr) (img : PILImg) :
    (env.pilImport = some m →
      (_extract_from_image env path).1 = Except.error (PyExc.exc (pillowMsgHead ++ m)))
    ∧ (env.pilImport = Option.none → env.openImage = Except.ok img →
        env.saveExc = Option.none → env.tessRun = Except.error (PyExc.fileNotFound m) →
        (_extract_from_image env path).1 = Except.error (PyExc.exc tessNotFoundMsg))
    ∧ pillowMsgHead ++ m ≠ tessNotFoundMsg
    ∧ (env.pilImport = Option.none →
        env.openImage = Except.error (PyExc.fileNotFound m) →
        (_extract_from_image env path).1 = Except.error (PyExc.exc tessNotFoundMsg)) := by
  refine ⟨?_, ?_, pillow_msg_ne_tess_msg m, ?_⟩
  · intro hpi
    unfold _extract_from_image
    rw [hpi]
    exact rfl
  · intro hpi hoi hsave htr
    unfold _extract_from_image
    rw [hpi, hoi, hsave, htr]
    exact rfl
  · intro hpi hoi
    unfold _extract_from_image
    rw [hpi, hoi]
    exact rfl

/-- Environment: the tesseract binary is absent, everything else fine. -/
def envTessMissing : ImageEnv :=
  { pilImport := Option.none
  , openImage := Except.ok { mode := strL "RGB" }
  , saveExc := Option.none
  , tessRun := Except.error (PyExc.fileNotFound (strL "tesseract")) }

/-- C4 witness: a missing tesseract binary yields the tesseract-missing
error. -/
theorem c4_error_causes_witness :
    (_extract_from_image envTessMissing (strL "img.png")).1
      = Except.error (PyExc.exc tessNotFoundMsg) :=
  (c4_error_causes envTessMissing (strL "img.png") (strL "tesseract")
      { mode := strL "RGB" }).2.1 rfl rfl rfl rfl

end PdfExtractor
